import Mathlib

/-!
Verification of the Markd-AI annotation pipeline (src/markdai/core.py).

The pipeline has two stages:
* `extract_pdf_annotations` walks the pages of a PDF document, keeps only
  the annotations whose `/Subtype` is `/Highlight` or `/Text`, and builds
  a uniform record per kept annotation.
* `stream_annotations_to_markdown` turns a list of record dictionaries
  into a single prompt string and forwards it to a generative backend,
  short-circuiting on the empty list.

The PDF parsing library is a black box: a document is modelled as the
ordered list of pages it exposes, each page optionally carrying an ordered
list of (already dereferenced) annotation objects.  The generative backend
is a black box `String → List String` mapping a prompt to its stream of
chunks; the pipeline output pairs the chunk list with the number of
backend calls made.
-/

namespace Markdai

/-- A dereferenced PDF annotation object: the dictionary fields that
`extract_pdf_annotations` reads, each possibly absent. -/
structure AnnotObj where
  subtype : Option String
  contents : Option String
  author : Option String
  creationDate : Option String
  rect : Option (List Int)
  deriving Repr, DecidableEq

/-- A page of the parsed document: it optionally declares an ordered
annotation list (the `"/Annots" in page` check). -/
structure Page where
  annots : Option (List AnnotObj)
  deriving Repr, DecidableEq

/-- The record built for each kept annotation (the Python dict literal at
core.py lines 30-37). -/
structure AnnotationRecord where
  page : Nat
  type : String
  contents : String
  author : String
  creation_date : String
  rect : List Int
  deriving Repr, DecidableEq

/-- Body of the inner loop of `extract_pdf_annotations`: read `/Subtype`,
keep only `/Highlight` and `/Text`, and build the record with the
defaulting reads of core.py lines 30-37 (`str(annot_obj.get("/Contents", ""))`
etc.).  `pageNum` is the 0-based index from `enumerate`. -/
def extractAnnot (pageNum : Nat) (a : AnnotObj) : Option AnnotationRecord :=
  match a.subtype with
  | some s =>
      if s = "/Highlight" ∨ s = "/Text" then
        some { page := pageNum + 1
               type := s
               contents := a.contents.getD ""
               author := a.author.getD ""
               creation_date := a.creationDate.getD ""
               rect := a.rect.getD [] }
      else none
  | none => none

/-- The per-page part of `extract_pdf_annotations`: if the page declares an
annotation list, visit its entries in stored order. -/
def extractPage (pageNum : Nat) (p : Page) : List AnnotationRecord :=
  match p.annots with
  | some l => l.filterMap (extractAnnot pageNum)
  | none => []

/-- `extract_pdf_annotations` (core.py lines 9-41): enumerate the pages and
collect the kept records in traversal order. -/
def extract_pdf_annotations (pages : List Page) : List AnnotationRecord :=
  ((pages.enum).map (fun np => extractPage np.1 np.2)).flatten

/-! ### Summarization (`stream_annotations_to_markdown`, core.py lines 43-82)

The function consumes plain Python dictionaries, reading only the keys
`contents`, `type` and `page`, each with a `.get` default, so its input is
modelled as a record of optional fields. -/

/-- A record dictionary as consumed by `stream_annotations_to_markdown`:
every key may be absent. -/
structure AnnotDict where
  page : Option Nat
  type : Option String
  contents : Option String
  author : Option String
  creation_date : Option String
  rect : Option (List Int)
  deriving Repr, DecidableEq

/-- The dictionary produced for an extracted record: all keys present. -/
def AnnotationRecord.toDict (r : AnnotationRecord) : AnnotDict :=
  { page := some r.page
    type := some r.type
    contents := some r.contents
    author := some r.author
    creation_date := some r.creation_date
    rect := some r.rect }

/-- The character class stripped by Python's `str.strip()` (ASCII
whitespace; exotic Unicode space characters are outside the model). -/
def isPySpace (c : Char) : Bool :=
  c = ' ' || c = '\t' || c = '\n' || c = '\r' || c = '\x0b' || c = '\x0c'

/-- Python `s.strip()`: remove leading and trailing whitespace. -/
def pyStrip (s : String) : String :=
  ⟨((s.data.dropWhile isPySpace).reverse.dropWhile isPySpace).reverse⟩

/-- Python `s.replace('/', '')` as used at core.py line 69: replacing the
one-character pattern `/` by the empty string deletes every `/`. -/
def replaceSlash (s : String) : String :=
  ⟨s.data.filter (fun c => c ≠ '/')⟩

/-- Python `sep.join(parts)`. -/
def pyJoin (sep : String) : List String → String
  | [] => ""
  | [s] => s
  | s :: rest => s ++ sep ++ pyJoin sep rest

/-- `annot.get('contents', 'N/A').strip()` (core.py line 68). -/
def contentOf (a : AnnotDict) : String :=
  pyStrip (a.contents.getD "N/A")

/-- `str(annot.get('type', '/Text')).replace('/', '')` (core.py line 69). -/
def typeOf (a : AnnotDict) : String :=
  replaceSlash (a.type.getD "/Text")

/-- `annot.get('page', '未知')` rendered by the f-string (core.py lines
70, 72): a present integer prints in decimal, an absent key prints the
placeholder string. -/
def pageOf (a : AnnotDict) : String :=
  match a.page with
  | some n => toString n
  | none => "未知"

/-- The three prompt lines appended for one record (core.py lines 72-74). -/
def annotLines (a : AnnotDict) : List String :=
  [ "- 第 " ++ pageOf a ++ " 页:"
  , "  - 类型: " ++ typeOf a
  , "  - 内容: " ++ contentOf a ]

/-- The fixed instruction preamble (core.py lines 60-64). -/
def promptPreamble : List String :=
  [ "你是一个高效的助手，负责将PDF注释总结为清晰、易读的Markdown格式。"
  , "请将以下结构化的注释数据转换为一个Markdown文档。如果一个注释没有内容，请指明。"
  , "请按页码对注释进行分组。对于每个注释，请包含其内容和类型（例如高亮、下划线、笔记）。\n" ]

/-- `prompt = "\n".join(prompt_parts)` (core.py lines 60-76). -/
def build_prompt (anns : List AnnotDict) : String :=
  pyJoin "\n" (promptPreamble ++ (anns.map annotLines).flatten)

/-- The message yielded for an empty record list (core.py line 56). -/
def noAnnotsMessage : String := "未找到任何注释进行处理。"

/-- `stream_annotations_to_markdown` (core.py lines 43-82).  The backend
(`genai.GenerativeModel(...).generate_content(prompt, stream=True)`) is a
black box from the prompt to its chunk stream; the result pairs the chunks
yielded by the generator with the number of backend calls made. -/
def stream_annotations_to_markdown (backend : String → List String)
    (anns : List AnnotDict) : List String × Nat :=
  if anns = [] then ([noAnnotsMessage], 0)
  else (backend (build_prompt anns), 1)

/-! ### CLI entry point (`main`, core.py lines 84-126) -/

/-- Observable steps of one `main` invocation, in execution order. -/
inductive MainEvent where
  | raiseConfigError
  | configureBackend
  | openFile
  | printNoAnnots
  | printFound
  deriving Repr, DecidableEq

/-- `--api_key` resolution: argparse uses the supplied value if present,
else `os.environ.get("GOOGLE_API_KEY")` (core.py line 87). -/
def resolveApiKey (argKey envKey : Option String) : Option String :=
  match argKey with
  | some s => some s
  | none => envKey

/-- Python truthiness test `not args.api_key` (core.py line 92): `None`
and the empty string are falsy. -/
def keyMissing (key : Option String) : Bool :=
  match key with
  | some s => s = ""
  | none => true

/-- The event trace of `main` (core.py lines 84-126) on a given document:
validate the credential first (raising `ValueError` before anything else),
then configure the backend, open and traverse the file, and report.  The
streaming call is commented out in the source, so no backend-contact event
exists on any path. -/
def mainTrace (argKey envKey : Option String) (doc : List Page) : List MainEvent :=
  if keyMissing (resolveApiKey argKey envKey) then [MainEvent.raiseConfigError]
  else
    MainEvent.configureBackend :: MainEvent.openFile ::
      (if extract_pdf_annotations doc = [] then [MainEvent.printNoAnnots]
       else [MainEvent.printFound])

/-! ### Auxiliary definitions for the statements and proofs -/

/-- Index-threaded form of the extraction loop, used for induction. -/
def extractFrom (k : Nat) : List Page → List AnnotationRecord
  | [] => []
  | p :: ps => extractPage k p ++ extractFrom (k + 1) ps

/-- The subtype filter of core.py line 29 as a Boolean predicate on the
raw annotation object. -/
def keepAnnot (a : AnnotObj) : Bool :=
  decide (a.subtype = some "/Highlight" ∨ a.subtype = some "/Text")

/-- The record built for a kept annotation object on 0-based page `k`. -/
def recordOf (k : Nat) (a : AnnotObj) : AnnotationRecord :=
  { page := k + 1
    type := a.subtype.getD ""
    contents := a.contents.getD ""
    author := a.author.getD ""
    creation_date := a.creationDate.getD ""
    rect := a.rect.getD [] }

/-- The three prompt lines of one record, viewed as a single contiguous
block (each line preceded by the separator that joins it to what came
before). -/
def blockStr (a : AnnotDict) : String :=
  "\n- 第 " ++ pageOf a ++ " 页:" ++ "\n  - 类型: " ++ typeOf a
    ++ "\n  - 内容: " ++ contentOf a

/-- Concatenation of the per-record blocks, in input order. -/
def concatBlocks : List AnnotDict → String
  | [] => ""
  | a :: rest => blockStr a ++ concatBlocks rest

/-! ### Concrete fixtures used by the witnesses -/

/-- A link annotation: a subtype the extractor must drop. -/
def linkAnnot : AnnotObj :=
  { subtype := some "/Link", contents := some "x", author := none,
    creationDate := none, rect := none }

/-- A highlight annotation with an absent `/Contents` field. -/
def hlAnnot : AnnotObj :=
  { subtype := some "/Highlight", contents := none, author := some "alice",
    creationDate := some "D:20240101", rect := some [0, 0, 10, 10] }

/-- A text-note annotation. -/
def txtAnnot : AnnotObj :=
  { subtype := some "/Text", contents := some "note", author := none,
    creationDate := none, rect := none }

/-- A three-page demo document: a page mixing a link and a highlight, a
page with no annotation list, and a page with one text note. -/
def demoDoc : List Page :=
  [ { annots := some [linkAnnot, hlAnnot] }
  , { annots := none }
  , { annots := some [txtAnnot] } ]

/-- The record extracted from `hlAnnot` on page 1. -/
def hlRecord : AnnotationRecord :=
  { page := 1, type := "/Highlight", contents := "", author := "alice",
    creation_date := "D:20240101", rect := [0, 0, 10, 10] }

/-- The record extracted from `txtAnnot` on page 3. -/
def txtRecord : AnnotationRecord :=
  { page := 3, type := "/Text", contents := "note", author := "",
    creation_date := "", rect := [] }

/-- A record dictionary with every key absent. -/
def bareDict : AnnotDict :=
  { page := none, type := none, contents := none,
    author := none, creation_date := none, rect := none }

/-- Record A of the spec's prompt example: page 1, Highlight,
"Important point". -/
def recA : AnnotDict :=
  { page := some 1, type := some "/Highlight", contents := some "Important point",
    author := some "", creation_date := some "", rect := some [] }

/-- Record B of the spec's prompt example: page 2, Text, empty content. -/
def recB : AnnotDict :=
  { page := some 2, type := some "/Text", contents := some "",
    author := some "", creation_date := some "", rect := some [] }

/-! ### Helper lemmas about extraction -/

lemma enumFrom_map_extract (k : Nat) (ps : List Page) :
    (((ps.enumFrom k)).map (fun np => extractPage np.1 np.2)).flatten
      = extractFrom k ps := by
  induction ps generalizing k with
  | nil => rfl
  | cons p ps ih => simp [List.enumFrom, extractFrom, ih]

lemma extract_eq_extractFrom (ps : List Page) :
    extract_pdf_annotations ps = extractFrom 0 ps :=
  enumFrom_map_extract 0 ps

lemma extractAnnot_eq_keep (k : Nat) (a : AnnotObj) :
    extractAnnot k a = if keepAnnot a then some (recordOf k a) else none := by
  unfold extractAnnot keepAnnot recordOf
  cases a.subtype with
  | none => simp
  | some s =>
    by_cases h : s = "/Highlight" ∨ s = "/Text"
    · simp [h]
    · simp [h]

lemma extractAnnot_spec {k : Nat} {a : AnnotObj} {r : AnnotationRecord}
    (h : extractAnnot k a = some r) :
    r.page = k + 1 ∧ (r.type = "/Highlight" ∨ r.type = "/Text") ∧
      r.contents = a.contents.getD "" := by
  rw [extractAnnot_eq_keep] at h
  by_cases hk : keepAnnot a
  · rw [if_pos hk] at h
    obtain rfl := (Option.some.inj h).symm
    have hk' : a.subtype = some "/Highlight" ∨ a.subtype = some "/Text" :=
      of_decide_eq_true hk
    refine ⟨rfl, ?_, rfl⟩
    unfold recordOf
    rcases hk' with h1 | h1 <;> simp [h1]
  · rw [if_neg hk] at h; cases h

lemma mem_extractPage {k : Nat} {p : Page} {r : AnnotationRecord}
    (h : r ∈ extractPage k p) :
    r.page = k + 1 ∧ (r.type = "/Highlight" ∨ r.type = "/Text") := by
  unfold extractPage at h
  cases hp : p.annots with
  | none => rw [hp] at h; cases h
  | some l =>
    rw [hp] at h
    obtain ⟨a, _, hr⟩ := List.mem_filterMap.mp h
    exact ⟨(extractAnnot_spec hr).1, (extractAnnot_spec hr).2.1⟩

lemma mem_extractFrom {k : Nat} {ps : List Page} {r : AnnotationRecord}
    (h : r ∈ extractFrom k ps) :
    k + 1 ≤ r.page ∧ (r.type = "/Highlight" ∨ r.type = "/Text") := by
  induction ps generalizing k with
  | nil => cases h
  | cons p ps ih =>
    rw [extractFrom] at h
    rcases List.mem_append.mp h with h1 | h2
    · obtain ⟨hpage, htype⟩ := mem_extractPage h1
      exact ⟨by omega, htype⟩
    · obtain ⟨hpage, htype⟩ := ih h2
      exact ⟨by omega, htype⟩

lemma mem_extract {ps : List Page} {r : AnnotationRecord}
    (h : r ∈ extract_pdf_annotations ps) :
    1 ≤ r.page ∧ (r.type = "/Highlight" ∨ r.type = "/Text") := by
  rw [extract_eq_extractFrom] at h
  exact mem_extractFrom h

lemma pairwise_le_of_const {l : List Nat} (c : Nat) (h : ∀ x ∈ l, x = c) :
    l.Pairwise (· ≤ ·) := by
  induction l with
  | nil => exact List.Pairwise.nil
  | cons x xs ih =>
    constructor
    · intro y hy
      rw [h x (List.mem_cons_self x xs), h y (List.mem_cons_of_mem x hy)]
    · exact ih (fun y hy => h y (List.mem_cons_of_mem x hy))

lemma extractFrom_pages_pairwise (k : Nat) (ps : List Page) :
    ((extractFrom k ps).map AnnotationRecord.page).Pairwise (· ≤ ·) := by
  induction ps generalizing k with
  | nil => exact List.Pairwise.nil
  | cons p ps ih =>
    rw [extractFrom, List.map_append, List.pairwise_append]
    refine ⟨pairwise_le_of_const (k + 1) ?_, ih (k + 1), ?_⟩
    · intro x hx
      obtain ⟨r, hr, rfl⟩ := List.mem_map.mp hx
      exact (mem_extractPage hr).1
    · intro x hx y hy
      obtain ⟨r1, hr1, rfl⟩ := List.mem_map.mp hx
      obtain ⟨r2, hr2, rfl⟩ := List.mem_map.mp hy
      have h1 := (mem_extractPage hr1).1
      have h2 := (mem_extractFrom hr2).1
      omega

lemma filterMap_extractAnnot (k : Nat) (l : List AnnotObj) :
    l.filterMap (extractAnnot k) = (l.filter keepAnnot).map (recordOf k) := by
  induction l with
  | nil => rfl
  | cons a as ih =>
    rw [List.filterMap_cons, List.filter_cons, extractAnnot_eq_keep]
    by_cases h : keepAnnot a
    · simp [h, ih]
    · simp [h, ih]

lemma extractPage_eq_filter_map (k : Nat) (p : Page) :
    extractPage k p = ((p.annots.getD []).filter keepAnnot).map (recordOf k) := by
  unfold extractPage
  cases p.annots with
  | none => rfl
  | some l => exact filterMap_extractAnnot k l

/-! ### Helper lemmas about prompt construction -/

lemma pyJoin_append (l1 l2 : List String) (h1 : l1 ≠ []) (h2 : l2 ≠ []) :
    pyJoin "\n" (l1 ++ l2) = pyJoin "\n" l1 ++ "\n" ++ pyJoin "\n" l2 := by
  induction l1 with
  | nil => exact absurd rfl h1
  | cons s rest ih =>
    cases rest with
    | nil =>
      cases l2 with
      | nil => exact absurd rfl h2
      | cons t ts => simp [pyJoin]
    | cons t ts =>
      have h := ih (by simp)
      simp only [List.cons_append] at h ⊢
      rw [show pyJoin "\n" (s :: t :: (ts ++ l2))
            = s ++ "\n" ++ pyJoin "\n" (t :: (ts ++ l2)) from rfl]
      rw [show pyJoin "\n" (s :: t :: ts) = s ++ "\n" ++ pyJoin "\n" (t :: ts) from rfl]
      rw [h]
      simp [String.append_assoc]

lemma pyJoin_annotLines (pre : List String) (hpre : pre ≠ []) (a : AnnotDict) :
    pyJoin "\n" (pre ++ annotLines a) = pyJoin "\n" pre ++ blockStr a := by
  rw [pyJoin_append pre (annotLines a) hpre (by simp [annotLines])]
  unfold blockStr
  rw [show ("\n- 第 " : String) = "\n" ++ "- 第 " from rfl]
  rw [show ("\n  - 类型: " : String) = "\n" ++ "  - 类型: " from rfl]
  rw [show ("\n  - 内容: " : String) = "\n" ++ "  - 内容: " from rfl]
  simp only [annotLines, pyJoin, String.append_assoc]

lemma prompt_shape (pre : List String) (hpre : pre ≠ []) (anns : List AnnotDict) :
    pyJoin "\n" (pre ++ (anns.map annotLines).flatten)
      = pyJoin "\n" pre ++ concatBlocks anns := by
  induction anns generalizing pre with
  | nil => simp [concatBlocks]
  | cons a rest ih =>
    rw [List.map_cons, List.flatten_cons, ← List.append_assoc]
    rw [ih (pre ++ annotLines a) (by simp [annotLines])]
    rw [pyJoin_annotLines pre hpre a, concatBlocks, String.append_assoc]

lemma build_prompt_shape (anns : List AnnotDict) :
    build_prompt anns = pyJoin "\n" promptPreamble ++ concatBlocks anns := by
  unfold build_prompt
  exact prompt_shape promptPreamble (by simp [promptPreamble]) anns

/-! ### Claim theorems -/

/-- C1: on an empty record list, `stream_annotations_to_markdown` makes
zero backend calls and yields exactly the single terminal chunk stating
that no annotations were found, for every possible backend. -/
theorem empty_records_one_chunk_zero_calls (backend : String → List String) :
    stream_annotations_to_markdown backend [] = ([noAnnotsMessage], 0) :=
  rfl

/-- C2: an annotation object whose subtype is neither `/Highlight` nor
`/Text` produces no record, and every record in the extracted sequence
carries one of the two kept subtypes. -/
theorem extract_keeps_only_highlight_and_text :
    (∀ (k : Nat) (a : AnnotObj), a.subtype ≠ some "/Highlight" →
        a.subtype ≠ some "/Text" → extractAnnot k a = none)
    ∧ ∀ (ps : List Page) (r : AnnotationRecord),
        r ∈ extract_pdf_annotations ps →
        r.type = "/Highlight" ∨ r.type = "/Text" := by
  constructor
  · intro k a h1 h2
    rw [extractAnnot_eq_keep]
    have hk : keepAnnot a = false := by
      unfold keepAnnot
      simp [h1, h2]
    rw [hk]
    rfl
  · intro ps r hr
    exact (mem_extract hr).2

/-- C2 witness: the link annotation of the demo document is dropped, and
the highlight record that is extracted carries a kept subtype. -/
theorem extract_keeps_only_highlight_and_text_witness :
    extractAnnot 0 linkAnnot = none
    ∧ (hlRecord.type = "/Highlight" ∨ hlRecord.type = "/Text") :=
  ⟨extract_keeps_only_highlight_and_text.1 0 linkAnnot (by decide) (by decide),
   extract_keeps_only_highlight_and_text.2 demoDoc hlRecord (by decide)⟩

/-- C3: page numbers of the extracted sequence are in ascending order,
and within each page the extracted records are exactly the kept
annotations of the page's stored list, in stored order, mapped to their
records — no sorting, no reordering, no deduplication. -/
theorem extract_order_preserved (ps : List Page) :
    List.Sorted (· ≤ ·) ((extract_pdf_annotations ps).map AnnotationRecord.page)
    ∧ ∀ (k : Nat) (p : Page),
        extractPage k p = ((p.annots.getD []).filter keepAnnot).map (recordOf k) := by
  constructor
  · rw [extract_eq_extractFrom]
    exact extractFrom_pages_pairwise 0 ps
  · exact extractPage_eq_filter_map

/-- C4: every record built by the extractor has its contents field equal
to the annotation's `/Contents` value defaulted to the empty string; in
particular an absent `/Contents` is normalized to `""`, never to an
absent marker. -/
theorem extract_contents_always_string (k : Nat) (a : AnnotObj)
    (r : AnnotationRecord) (h : extractAnnot k a = some r) :
    r.contents = a.contents.getD "" ∧ (a.contents = none → r.contents = "") := by
  refine ⟨(extractAnnot_spec h).2.2, fun hn => ?_⟩
  rw [(extractAnnot_spec h).2.2, hn]
  rfl

/-- C4 witness: the highlight annotation with absent `/Contents` yields
the record with empty-string contents. -/
theorem extract_contents_always_string_witness :
    hlRecord.contents = hlAnnot.contents.getD "" ∧ hlRecord.contents = "" :=
  ⟨(extract_contents_always_string 0 hlAnnot hlRecord (by decide)).1,
   (extract_contents_always_string 0 hlAnnot hlRecord (by decide)).2 rfl⟩

/-- C5: every extracted record satisfies the data-model invariants: its
page number is at least 1 and its kind is one of the two enumerated
subtypes. -/
theorem extract_record_invariants (ps : List Page) (r : AnnotationRecord)
    (h : r ∈ extract_pdf_annotations ps) :
    1 ≤ r.page ∧ (r.type = "/Highlight" ∨ r.type = "/Text") :=
  mem_extract h

/-- C5 witness: the text record extracted from page 3 of the demo
document satisfies both invariants. -/
theorem extract_record_invariants_witness :
    txtRecord ∈ extract_pdf_annotations demoDoc
    ∧ (1 ≤ txtRecord.page ∧ (txtRecord.type = "/Highlight" ∨ txtRecord.type = "/Text")) :=
  ⟨by decide, extract_record_invariants demoDoc txtRecord (by decide)⟩

/-- C6: for a non-empty record list the built prompt is the preamble
followed by one block per record, concatenated in input order; each block
renders the record's page, its kind label with the `/` marker stripped
(`Highlight`, not `/Highlight`), and its trimmed content; an empty
content is rendered as the empty string. -/
theorem prompt_one_block_per_record (anns : List AnnotDict) (_h : anns ≠ []) :
    build_prompt anns = pyJoin "\n" promptPreamble ++ concatBlocks anns
    ∧ (∀ a : AnnotDict, a.type = some "/Highlight" → typeOf a = "Highlight")
    ∧ (∀ a : AnnotDict, a.contents = some "" → contentOf a = "") := by
  refine ⟨build_prompt_shape anns, ?_, ?_⟩
  · intro a ha
    unfold typeOf
    rw [ha]
    decide
  · intro a ha
    unfold contentOf
    rw [ha]
    decide

/-- C6 witness: the spec's two-record example — A (page 1, Highlight,
"Important point") then B (page 2, Text, "") — yields the preamble plus
the A block plus the B block, with B's content the empty string. -/
theorem prompt_one_block_per_record_witness :
    build_prompt [recA, recB] = pyJoin "\n" promptPreamble ++ concatBlocks [recA, recB]
    ∧ typeOf recA = "Highlight" ∧ contentOf recB = "" :=
  ⟨(prompt_one_block_per_record [recA, recB] (by decide)).1,
   (prompt_one_block_per_record [recA, recB] (by decide)).2.1 recA rfl,
   (prompt_one_block_per_record [recA, recB] (by decide)).2.2 recB rfl⟩

/-- C7: prompt construction is a pure, deterministic function of the
record list: two runs on identical record lists build identical prompt
strings.  Purity holds by construction of the embedding, since
`build_prompt` reads nothing but its argument — exactly as the source
builds the prompt from `annotations` alone. -/
theorem prompt_deterministic (anns1 anns2 : List AnnotDict) (h : anns1 = anns2) :
    build_prompt anns1 = build_prompt anns2 :=
  congrArg build_prompt h

/-- C7 witness: two runs on the same one-record list agree. -/
theorem prompt_deterministic_witness :
    build_prompt [bareDict] = build_prompt [bareDict] :=
  prompt_deterministic [bareDict] [bareDict] rfl

/-- C8: when no credential is supplied on the command line and none is in
the environment, `main` raises the configuration error as its only
observable step: no file is opened and the backend is never configured or
contacted, whatever the document is. -/
theorem missing_credential_fails_first (doc : List Page) :
    mainTrace none none doc = [MainEvent.raiseConfigError]
    ∧ MainEvent.openFile ∉ mainTrace none none doc
    ∧ MainEvent.configureBackend ∉ mainTrace none none doc := by
  have h : mainTrace none none doc = [MainEvent.raiseConfigError] := rfl
  refine ⟨h, ?_, ?_⟩ <;> rw [h] <;> decide

/-- C10: the prompt builder is total over record dictionaries with
missing keys: an absent `contents` key renders as `N/A` (not the empty
string), an absent `type` key renders as the `Text` label, an absent
`page` key renders as the placeholder `未知`, and a record missing all
three keys still renders as a full three-line block. -/
theorem prompt_missing_key_defaults (a : AnnotDict) :
    (a.contents = none → contentOf a = "N/A")
    ∧ (a.type = none → typeOf a = "Text")
    ∧ (a.page = none → pageOf a = "未知")
    ∧ (a.contents = none → a.type = none → a.page = none →
        annotLines a = ["- 第 未知 页:", "  - 类型: Text", "  - 内容: N/A"]) := by
  refine ⟨fun h => ?_, fun h => ?_, fun h => ?_, fun h1 h2 h3 => ?_⟩
  · unfold contentOf; rw [h]; decide
  · unfold typeOf; rw [h]; decide
  · unfold pageOf; rw [h]
  · unfold annotLines contentOf typeOf pageOf
    rw [h1, h2, h3]
    decide

/-- C10 witness: the all-keys-absent dictionary renders with the three
defaults and as a full block. -/
theorem prompt_missing_key_defaults_witness :
    contentOf bareDict = "N/A" ∧ typeOf bareDict = "Text"
    ∧ pageOf bareDict = "未知"
    ∧ annotLines bareDict = ["- 第 未知 页:", "  - 类型: Text", "  - 内容: N/A"] :=
  ⟨(prompt_missing_key_defaults bareDict).1 rfl,
   (prompt_missing_key_defaults bareDict).2.1 rfl,
   (prompt_missing_key_defaults bareDict).2.2.1 rfl,
   (prompt_missing_key_defaults bareDict).2.2.2 rfl rfl rfl⟩

end Markdai
